/-
Verification of the blog-agent repository's core subsystems against its
natural-language specification.

The TypeScript sources are shallowly embedded as executable Lean
definitions.  JavaScript strings are modelled as `String` (with the
character-list `String.data` used for the string algorithms), JS
`undefined`-able values as `Option`, thrown exceptions as `Except`, and
the nondeterministic inputs of each orchestration function (upstream API
responses, the random jitter source, the clock) as explicit oracle
parameters.  Regular-expression operations from `stringUtils.ts` are
embedded as direct scanning functions implementing the exact semantics of
the concrete regexes appearing in the source (leftmost match, lazy or
greedy quantifiers as written, `g`/`i` flags), with removal resuming after
each match exactly as `String.replace` does.
-/
import Mathlib

/-! ## Basic character/string helpers (JS semantics) -/

/-- JS `\s` (whitespace class) restricted to the ASCII whitespace that can
occur in the strings this program manipulates. -/
def isJsSpaceChar (c : Char) : Bool :=
  c == ' ' || c == '\t' || c == '\n' || c == '\r' || c == '\x0b' || c == '\x0c'

/-- JS `\w`: `[A-Za-z0-9_]`. -/
def isWordCharJs (c : Char) : Bool :=
  c.isAlphanum || c == '_'

/-- `String.prototype.toLowerCase` (ASCII). -/
def toLowerStr (s : String) : String :=
  String.mk (s.data.map Char.toLower)

/-- Does `hay` start with `needle` (case-sensitive)? -/
def listStartsWith : List Char → List Char → Bool
  | _, [] => true
  | [], _ :: _ => false
  | h :: hs, n :: ns => h == n && listStartsWith hs ns

/-- Substring occurrence on character lists (JS `String.prototype.includes`). -/
def listHasInfix : List Char → List Char → Bool
  | [], n => n.isEmpty
  | h :: hs, n => listStartsWith (h :: hs) n || listHasInfix hs n

/-- JS `hay.includes(needle)`. -/
def strContainsStr (hay needle : String) : Bool :=
  listHasInfix hay.data needle.data

/-- JS `String.prototype.trim` on a character list. -/
def jsTrim (cs : List Char) : List Char :=
  ((cs.dropWhile isJsSpaceChar).reverse.dropWhile isJsSpaceChar).reverse

/-- JS `String.prototype.trim`. -/
def jsTrimStr (s : String) : String :=
  String.mk (jsTrim s.data)

/-- JS falsiness of a possibly-`undefined` string (`!x` is true for
`undefined` and for `""`). -/
def jsStrFalsy : Option String → Bool
  | none => true
  | some s => s == ""

/-! ## `fileUtils.ts` — duplicate title filter -/

/-- Collapse every maximal run of whitespace to a single `' '`
(JS `replace(/\s+/g, " ")`). -/
def collapseSpaces : List Char → List Char
  | [] => []
  | [c] => if isJsSpaceChar c then [' '] else [c]
  | c :: d :: rest =>
    if isJsSpaceChar c && isJsSpaceChar d then collapseSpaces (d :: rest)
    else (if isJsSpaceChar c then ' ' else c) :: collapseSpaces (d :: rest)

/-- `normalizeTitle` (fileUtils.ts:82-88): lowercase, remove `[^\w\s]`,
collapse whitespace runs to one space, trim. -/
def normalizeTitle (title : String) : String :=
  let lowered := title.data.map Char.toLower
  let noPunct := lowered.filter (fun c => isWordCharJs c || isJsSpaceChar c)
  String.mk (jsTrim (collapseSpaces noPunct))

/-- JS `s.split(" ")`: fields between single-space separators (empty fields
kept). Accumulator-based helper. -/
def splitOnSpaceAux : List Char → List Char → List (List Char)
  | acc, [] => [acc.reverse]
  | acc, ' ' :: rest => acc.reverse :: splitOnSpaceAux [] rest
  | acc, c :: rest => splitOnSpaceAux (c :: acc) rest

/-- JS `s.split(" ")`. -/
def splitOnSpace (s : String) : List String :=
  (splitOnSpaceAux [] s.data).map String.mk

/-- The content words of a normalized title: `split(" ")` then
`filter(word => word.length > 2)` (fileUtils.ts:105-108). -/
def contentWords (normalized : String) : List String :=
  (splitOnSpace normalized).filter (fun w => w.length > 2)

/-- The per-pair body of `isDuplicateTitle`'s `existingTitles.some(...)`
callback (fileUtils.ts:96-119): exact normalized match, or the
shared-content-word ratio `commonWords.length / max(|new|, |existing|)`
at or above `0.8` (here cross-multiplied to avoid division). -/
def dupPair (newTitle existing : String) : Bool :=
  let normalizedNew := normalizeTitle newTitle
  let normalizedExisting := normalizeTitle existing
  if normalizedNew == normalizedExisting then true
  else
    let newWords := contentWords normalizedNew
    let existingWords := contentWords normalizedExisting
    if newWords.length == 0 || existingWords.length == 0 then false
    else
      let commonWords := newWords.filter (fun w => existingWords.contains w)
      -- similarity >= 0.8  ⟺  5 * common ≥ 4 * max (exact for these integer sizes)
      decide (4 * max newWords.length existingWords.length ≤ 5 * commonWords.length)

/-- `isDuplicateTitle` (fileUtils.ts:90-120). -/
def isDuplicateTitle (newTitle : String) (existingTitles : List String) : Bool :=
  existingTitles.any (dupPair newTitle)

/-- `filterDuplicateTitles` (fileUtils.ts:122-136): keep candidates that are
not duplicates of any existing title, preserving order. -/
def filterDuplicateTitles (newTitles existingTitles : List String) : List String :=
  newTitles.filter (fun title => !isDuplicateTitle title existingTitles)

/-- Modelled from the spec's words (for comparison with `dupPair`): each
side's normalized token **set** (words longer than two characters,
de-duplicated), intersection size divided by the larger side's size,
duplicate iff normalized forms identical or that fraction is ≥ 0.8. -/
def specTokenSet (t : String) : List String :=
  (contentWords (normalizeTitle t)).dedup

/-- Modelled from the spec's words: the duplicate predicate of §4.5 as
stated (set-based shared-word fraction). -/
def specIsDuplicatePair (a b : String) : Bool :=
  normalizeTitle a == normalizeTitle b ||
    decide (4 * max (specTokenSet a).length (specTokenSet b).length ≤
      5 * ((specTokenSet a).filter (fun w => (specTokenSet b).contains w)).length)

example : normalizeTitle "The Future of Sustainable Packaging" =
    "the future of sustainable packaging" := by decide

example : isDuplicateTitle "Future of Sustainable Packaging Solutions"
    ["The Future of Sustainable Packaging"] = false := by decide

example : isDuplicateTitle "The future of sustainable packaging!"
    ["The Future of Sustainable Packaging"] = true := by decide

example : dupPair "aaa aaa aaa aaa ccc" "aaa bbb ddd eee" = true := by decide

example : specIsDuplicatePair "aaa aaa aaa aaa ccc" "aaa bbb ddd eee" = false := by decide

/-! ## `stringUtils.ts` — content validator

Each regular expression of `validateAndCleanContent` /
`hasInvalidImageContent` is embedded as a position matcher
(`List Char → Option (List Char)`: if a match starts at this position,
return the suffix after the match), together with a generic scanner that
implements `String.replace(re, "")` with the `g` flag (advance one
character on failure, resume after the end of each match) and `re.test`.
-/

/-- Matcher for `.*?\)` with `.` excluding newline (lazy: stop at the first
`)`; a newline aborts the match, as `.` cannot cross it and nothing after
the `)` could backtrack past it). -/
def mdImageClose : List Char → Option (List Char)
  | [] => none
  | c :: rest =>
    if c == ')' then some rest
    else if c == '\n' then none
    else mdImageClose rest

/-- Matcher for `.*?\]\(` followed by `.*?\)` (lazy: the first `](` not
separated from the start by a newline; no later `](` can succeed if the
first one's close fails, since `.` cannot cross newlines). -/
def mdImageMid : List Char → Option (List Char)
  | [] => none
  | ']' :: '(' :: rest => mdImageClose rest
  | c :: rest =>
    if c == '\n' then none
    else mdImageMid rest

/-- `/!\[.*?\]\(.*?\)/` — markdown image syntax (stringUtils.ts:38,81). -/
def matchMdImage : List Char → Option (List Char)
  | '!' :: '[' :: rest => mdImageMid rest
  | _ => none

/-- Matcher for `[^>]*>` (greedy `[^>]*` then `>`: ends at the first `>`,
which may be preceded by any characters including newlines). -/
def imgTagClose : List Char → Option (List Char)
  | [] => none
  | c :: rest => if c == '>' then some rest else imgTagClose rest

/-- `/<img[^>]*>/i` — raw HTML image tags (stringUtils.ts:55,85). -/
def matchImgTag : List Char → Option (List Char)
  | '<' :: c1 :: c2 :: c3 :: rest =>
    if c1.toLower == 'i' && c2.toLower == 'm' && c3.toLower == 'g' then
      imgTagClose rest
    else none
  | _ => none

/-- Case-insensitive literal prefix matcher (the needle is given in
lowercase); returns the suffix after the literal. -/
def matchLitCI : List Char → List Char → Option (List Char)
  | [], hay => some hay
  | _ :: _, [] => none
  | n :: ns, h :: hs => if h.toLower == n then matchLitCI ns hs else none

/-- First alternative of an extension alternation matching at this position
(case-insensitive), returning its length. -/
def extAt : List (List Char) → List Char → Option Nat
  | [], _ => none
  | e :: es, cs =>
    match matchLitCI e cs with
    | some _ => some e.length
    | none => extAt es cs

/-- Greedy-backtracking search used by the image-URL regexes: the largest
`i ≥ minA` such that `run` (a maximal non-whitespace run) has `'.'` at
position `i` followed by one of the extensions.  The regex's `[^\s]+`
(resp. `[^\s]*`) consumes greedily and gives back characters from the
right, so the rightmost viable dot wins. -/
def lastDotExt (exts : List (List Char)) (run : List Char) (minA : Nat) : Option Nat :=
  ((List.range run.length).filter (fun i =>
    decide (minA ≤ i) && (run.get? i == some '.') &&
      (extAt exts (run.drop (i + 1))).isSome)).getLast?

def imageUrlExts : List (List Char) :=
  [['j','p','g'], ['j','p','e','g'], ['p','n','g'], ['g','i','f'],
   ['w','e','b','p'], ['s','v','g']]

/-- `/https?:\/\/[^\s]+\.(jpg|jpeg|png|gif|webp|svg)(\?[^\s]*)?/i`
(stringUtils.ts:42,82). -/
def matchImageUrl (cs : List Char) : Option (List Char) :=
  match matchLitCI ['h','t','t','p'] cs with
  | none => none
  | some r1 =>
    -- optional `s` (greedy; taking it never blocks `://`)
    let r2 := match r1 with
      | c :: rest => if c.toLower == 's' then rest else r1
      | [] => r1
    match matchLitCI [':','/','/'] r2 with
    | none => none
    | some r3 =>
      let run := r3.takeWhile (fun c => !isJsSpaceChar c)
      match lastDotExt imageUrlExts run 1 with
      | none => none
      | some i =>
        let extLen := (extAt imageUrlExts (run.drop (i + 1))).getD 0
        let j := i + 1 + extLen
        -- optional `\?[^\s]*` is greedy: a `?` extends the match to the
        -- end of the non-whitespace run
        let consumed := if run.get? j == some '?' then run.length else j
        some (r3.drop consumed)

/-- `/placeholder\.com[^\s]*/i` (stringUtils.ts:47). -/
def matchPlaceholderCom (cs : List Char) : Option (List Char) :=
  match matchLitCI "placeholder.com".data cs with
  | none => none
  | some r => some (r.dropWhile (fun c => !isJsSpaceChar c))

/-- `/via\.placeholder\.com[^\s]*/i` (stringUtils.ts:48). -/
def matchViaPlaceholderCom (cs : List Char) : Option (List Char) :=
  match matchLitCI "via.placeholder.com".data cs with
  | none => none
  | some r => some (r.dropWhile (fun c => !isJsSpaceChar c))

def exampleComExts : List (List Char) :=
  [['j','p','g'], ['j','p','e','g'], ['p','n','g'], ['g','i','f']]

/-- `/example\.com[^\s]*\.(jpg|jpeg|png|gif)/i` (stringUtils.ts:49-52). -/
def matchExampleCom (cs : List Char) : Option (List Char) :=
  match matchLitCI "example.com".data cs with
  | none => none
  | some r =>
    let run := r.takeWhile (fun c => !isJsSpaceChar c)
    match lastDotExt exampleComExts run 0 with
    | none => none
    | some i =>
      let extLen := (extAt exampleComExts (run.drop (i + 1))).getD 0
      some (r.drop (i + 1 + extLen))

/-- `String.replace(re, "")` with the `g` flag: scan left to right, delete
each match and resume scanning at its end.  `fuel` bounds the recursion;
every matcher consumes at least one character, so `cs.length` suffices. -/
def scanRemove (m : List Char → Option (List Char)) : Nat → List Char → List Char
  | 0, cs => cs
  | _ + 1, [] => []
  | fuel + 1, c :: cs =>
    match m (c :: cs) with
    | some rest => scanRemove m fuel rest
    | none => c :: scanRemove m fuel cs

def removeAll (m : List Char → Option (List Char)) (cs : List Char) : List Char :=
  scanRemove m cs.length cs

/-- `re.test(s)`: does a match start at some position? -/
def scanHas (m : List Char → Option (List Char)) : List Char → Bool
  | [] => false
  | c :: cs => (m (c :: cs)).isSome || scanHas m cs

/-- `replace(/\n\n\n+/g, "\n\n")`: each maximal run of three or more
newlines collapses to two. -/
def collapseNewlines : Nat → List Char → List Char
  | 0, cs => cs
  | fuel + 1, '\n' :: '\n' :: '\n' :: rest =>
    '\n' :: '\n' :: collapseNewlines fuel (rest.dropWhile (fun c => c == '\n'))
  | fuel + 1, c :: cs => c :: collapseNewlines fuel cs
  | _ + 1, [] => []

/-- The six bracketed "insert image here"-style placeholder literals
(stringUtils.ts:58-65), lowercased for the `i` flag. -/
def placeholderLits : List (List Char) :=
  ["[insert image here]".data, "[image placeholder]".data, "[add image]".data,
   "[photo here]".data, "(image to be added)".data, "(insert photo)".data]

/-- `validateAndCleanContent` (stringUtils.ts:33-76): strip, in source
order, markdown images, image URLs, placeholder-domain references, raw
`img` tags and bracketed placeholders, then collapse excess blank lines
and trim. -/
def validateAndCleanContent (content : String) : String :=
  let c1 := removeAll matchMdImage content.data
  let c2 := removeAll matchImageUrl c1
  let c3 := removeAll matchPlaceholderCom c2
  let c4 := removeAll matchViaPlaceholderCom c3
  let c5 := removeAll matchExampleCom c4
  let c6 := removeAll matchImgTag c5
  let c7 := placeholderLits.foldl (fun acc lit => removeAll (matchLitCI lit) acc) c6
  let c8 := collapseNewlines c7.length c7
  String.mk (jsTrim c8)

/-- `hasInvalidImageContent` (stringUtils.ts:78-92): test for any of the
forbidden patterns (note: only the first three bracketed placeholders are
tested, and the placeholder domains are bare substring tests). -/
def hasInvalidImageContent (content : String) : Bool :=
  scanHas matchMdImage content.data ||
  scanHas matchImageUrl content.data ||
  scanHas (matchLitCI "placeholder.com".data) content.data ||
  scanHas (matchLitCI "via.placeholder.com".data) content.data ||
  scanHas matchImgTag content.data ||
  scanHas (matchLitCI "[insert image here]".data) content.data ||
  scanHas (matchLitCI "[image placeholder]".data) content.data ||
  scanHas (matchLitCI "[add image]".data) content.data

example : validateAndCleanContent "a ![alt](http://x/y.png) b" = "a  b" := by decide

example : hasInvalidImageContent "see https://images.example/pic.jpg now" = true := by decide

example : hasInvalidImageContent "plain text, no images" = false := by decide

example : validateAndCleanContent "![a<img\n>](b)" = "![a](b)" := by decide

example : hasInvalidImageContent (validateAndCleanContent "![a<img\n>](b)") = true := by decide

example : validateAndCleanContent "![a<i<img\n>mg\n>](b)" = "![a<img\n>](b)" := by decide

example : validateAndCleanContent "x\n\n\n\n\ny" = "x\n\ny" := by decide

/-! ## `retryUtils.ts` — retry governor -/

/-- `RetryOptions` (retryUtils.ts:67-73). -/
structure RetryOptions where
  maxRetries : Nat
  baseDelayMs : Nat
  maxDelayMs : Nat
  exponentialBase : Nat
  retryableErrors : List Nat
deriving Repr, DecidableEq

/-- `DEFAULT_RETRY_OPTIONS` (retryUtils.ts:82-88). -/
def DEFAULT_RETRY_OPTIONS : RetryOptions :=
  { maxRetries := 3, baseDelayMs := 1000, maxDelayMs := 30000,
    exponentialBase := 2, retryableErrors := [429, 500, 502, 503, 504] }

/-- A thrown JS error as `withRetry` distinguishes them: either an
`instanceof RetryableError` (with status code and optional
`retryAfterMs` hint, retryUtils.ts:90-99) or any other `Error`. -/
inductive JsError where
  | retryableErr (statusCode : Nat) (retryAfterMs : Option Nat) (message : String)
  | plainErr (message : String)
deriving Repr, DecidableEq

def JsError.isRetryable : JsError → Bool
  | .retryableErr .. => true
  | .plainErr _ => false

/-- `calculateExponentialDelay` (retryUtils.ts:230-238):
`min(base * expBase^attempt * (1 + rand * 0.1), maxDelay)` where `rand` is
the `Math.random()` draw for this call. -/
def calculateExponentialDelay (attempt : Nat) (options : RetryOptions) (rand : ℚ) : ℚ :=
  let delay : ℚ := (options.baseDelayMs : ℚ) * (options.exponentialBase : ℚ) ^ attempt
  let jitter : ℚ := rand * (1 / 10) * delay
  min (delay + jitter) (options.maxDelayMs : ℚ)

/-- Observable trace of one `withRetry` call: its outcome, how many times
the operation was invoked, and the delays slept between attempts. -/
structure RetryRun (α : Type) where
  result : Except JsError α
  invocations : Nat
  delays : List ℚ
deriving Repr

/-- The `for (let attempt = 0; attempt <= config.maxRetries; attempt++)`
loop of `withRetry` (retryUtils.ts:108-142).  The operation is an oracle
indexed by attempt number; `rand` supplies the jitter draw per attempt.
`fuel` is `maxRetries + 1 - attempt`; the fuel-0 branch mirrors the
unreachable `throw lastError!` after the loop. -/
def withRetryGo (op : Nat → Except JsError α) (config : RetryOptions)
    (rand : Nat → ℚ) : Nat → Nat → RetryRun α
  | _, 0 => ⟨.error (.plainErr "unreachable"), 0, []⟩
  | attempt, fuel + 1 =>
    match op attempt with
    | .ok v => ⟨.ok v, 1, []⟩
    | .error e =>
      if attempt == config.maxRetries then ⟨.error e, 1, []⟩
      else
        match e with
        | .retryableErr _ hint _ =>
          -- `error.retryAfterMs || calculateExponentialDelay(attempt, config)`
          -- (a present-but-zero hint is falsy)
          let delayMs : ℚ :=
            match hint with
            | some h => if h ≠ 0 then (h : ℚ)
                        else calculateExponentialDelay attempt config (rand attempt)
            | none => calculateExponentialDelay attempt config (rand attempt)
          let rest := withRetryGo op config rand (attempt + 1) fuel
          ⟨rest.result, rest.invocations + 1, delayMs :: rest.delays⟩
        | .plainErr _ => ⟨.error e, 1, []⟩

/-- `withRetry` (retryUtils.ts:101-145), modelled with the merged
configuration (callers pass `{...DEFAULT_RETRY_OPTIONS, ...options}`). -/
def withRetry (op : Nat → Except JsError α) (config : RetryOptions)
    (rand : Nat → ℚ) : RetryRun α :=
  withRetryGo op config rand 0 (config.maxRetries + 1)

example :
    (withRetry (fun _ => .error (.retryableErr 429 (some 1000) "Simulated rate limit"))
      DEFAULT_RETRY_OPTIONS (fun _ => 0) : RetryRun Unit).invocations = 4 := by decide

example :
    (withRetry (fun _ => .error (.plainErr "Non-retryable error"))
      DEFAULT_RETRY_OPTIONS (fun _ => 0) : RetryRun Unit).invocations = 1 := by decide

example :
    (withRetry (fun i => if i < 2 then .error (.retryableErr 429 (some 1000) "rl")
                         else .ok 7) DEFAULT_RETRY_OPTIONS (fun _ => 0)).result = .ok 7 := by
  rfl

/-! ## `pexelsService.ts` — asset resolver content filter -/

/-- A Pexels photo candidate as inspected by the filters: every field the
API may omit is an `Option`. -/
structure PexelsPhotoC where
  alt : Option String
  srcLarge : Option String
  srcMedium : Option String
  photographer : Option String
  photographerUrl : Option String
  url : Option String
deriving Repr

/-- The `excludedKeywords` list (pexelsService constructor, part_003:21-44). -/
def excludedKeywords : List String :=
  ["screenshot", "interface", "app", "application", "software", "demo",
   "ui", "ux", "mockup", "wireframe", "prototype", "dashboard", "browser",
   "website", "webpage", "screen", "monitor display", "logo", "brand",
   "branding", "identity", "trademark"]

/-- `isStockPhotoContent` (part_003:294-310): a candidate with falsy alt
text is accepted outright; otherwise the lowercased alt text must contain
no excluded keyword. -/
def isStockPhotoContent (photo : PexelsPhotoC) : Bool :=
  if jsStrFalsy photo.alt then true  -- `if (!photo.alt) return true`
  else
    let altText := toLowerStr (photo.alt.getD "")
    let hasExcludedContent :=
      excludedKeywords.any (fun keyword => strContainsStr altText (toLowerStr keyword))
    if hasExcludedContent then false else true

/-- `isValidPexelsPhoto` (part_003:312-325): required fields present and a
secure Pexels preview URL. -/
def isValidPexelsPhoto (photo : PexelsPhotoC) : Bool :=
  !(jsStrFalsy photo.srcLarge) && !(jsStrFalsy photo.srcMedium) &&
  !(jsStrFalsy photo.photographer) && !(jsStrFalsy photo.photographerUrl) &&
  !(jsStrFalsy photo.url) &&
  strContainsStr (photo.srcLarge.getD "") "pexels.com" &&
  (photo.srcLarge.getD "").startsWith "https://"

example : isStockPhotoContent ⟨none, none, none, none, none, none⟩ = true := by decide

example :
    isStockPhotoContent ⟨some "App interface screenshot", none, none, none, none, none⟩
      = false := by decide

/-! ## Data model (`types.ts`) and API response shapes -/

/-- `ApiResponse<string>` as produced by `OpenRouterService.generateContent`
and `PexelsService.findCoverImage`.  `data` is `Option` because a failed
response carries none; `error` is the optional error message. -/
structure ApiResponse where
  success : Bool
  data : Option String
  error : Option String
deriving Repr

/-- The `!response.success || !response.data` guard used throughout the
content processor (failure or JS-falsy data, i.e. absent or empty). -/
def ApiResponse.failed (r : ApiResponse) : Bool :=
  !r.success || jsStrFalsy r.data

structure BlogSubsection where
  title : String
  description : String
deriving Repr

structure BlogSection where
  title : String
  description : String
  subsections : List BlogSubsection
deriving Repr

/-- A validated `BlogOutline` after `generateOutline`'s checks. -/
structure BlogOutline where
  title : String
  introduction : String
  sections : List BlogSection
  conclusion : String
deriving Repr

/-- The raw object produced by `JSON.parse` of an outline response, before
validation: every required field may be absent. -/
structure RawOutline where
  title : Option String
  introduction : Option String
  sections : Option (List BlogSection)
  conclusion : Option String
deriving Repr

structure BlogMetadata where
  tags : List String
  category : String
deriving Repr

structure InlineImage where
  url : String
  alt : String
  photographer : String
  photographerUrl : String
  pexelsUrl : String
deriving Repr

/-- `BlogPost` (types.ts).  `coverImageUrl` is declared `string` in the
interface, but `ContentProcessor.generateBlogContent` assigns `undefined`
to it when cover resolution fails, so the runtime value is modelled as
`Option String`. -/
structure BlogPost where
  title : String
  content : String
  coverImageUrl : Option String
  tags : List String
  category : String
  date : String
  inlineImages : List InlineImage
deriving Repr

/-! ## `BlogValidator` (validators/blogValidator.ts, in statsTracker part) -/

namespace BlogValidator

/-- `validateContent` (blogValidator): reject leaked image references,
empty bodies, missing `##` section headers and missing conclusion
markers. -/
def validateContent (post : BlogPost) : Except String Unit :=
  if hasInvalidImageContent post.content then
    .error "Blog post content contains invalid image references"
  else if post.content == "" || (jsTrimStr post.content).length == 0 then
    .error "Blog post content cannot be empty"
  else if !(strContainsStr post.content "##") then
    .error "Blog post must have proper section headers (##)"
  else
    let contentLower := toLowerStr post.content
    let hasConclusion :=
      strContainsStr contentLower "## conclusion" ||
      strContainsStr contentLower "conclusion" ||
      strContainsStr contentLower "## final thoughts" ||
      strContainsStr contentLower "## wrapping up" ||
      strContainsStr contentLower "## summary" ||
      strContainsStr contentLower "## key takeaways"
    if !hasConclusion then .error "Blog post must have a conclusion section"
    else .ok ()

/-- `validateImages` (blogValidator): the cover image is checked **only if
present** (`if (post.coverImageUrl && ...)`); inline images must come from
Pexels. -/
def validateImages (post : BlogPost) : Except String Unit :=
  if !(jsStrFalsy post.coverImageUrl) &&
      !(strContainsStr (post.coverImageUrl.getD "") "pexels.com") then
    .error "Cover image must be from Pexels"
  else if post.inlineImages.any (fun image =>
      !(strContainsStr image.url "pexels.com") ||
      !(strContainsStr image.pexelsUrl "pexels.com")) then
    .error "All inline images must be from Pexels"
  else .ok ()

/-- `validateBlogPost` (blogValidator): `validateContent` then
`validateImages`; `validateWordCount` and `validateBlogStyle` only log and
never throw, so they contribute nothing observable. -/
def validateBlogPost (post : BlogPost) : Except String Unit :=
  validateContent post >>= fun _ => validateImages post

end BlogValidator

/-! ## `ContentProcessor` (part_001) -/

namespace ContentProcessor

/-- `generateFallbackIntroduction` (part_001:431-442). -/
def generateFallbackIntroduction (title description : String) : String :=
  "# " ++ title ++ "\n\n" ++ description ++
  "\n\nIn this comprehensive guide, we'll explore everything you need to know about this topic. Whether you're just getting started or looking to deepen your understanding, this article will provide you with valuable insights and practical strategies.\n\nLet's dive in and discover how you can apply these concepts to achieve your goals."

/-- `generateFallbackSection` (part_001:444-456). -/
def generateFallbackSection (section' : BlogSection) : String :=
  let subsections := String.intercalate "\n\n"
    (section'.subsections.map (fun sub => "### " ++ sub.title ++ "\n\n" ++ sub.description))
  "## " ++ section'.title ++ "\n\n" ++ section'.description ++ "\n\n" ++ subsections ++
  "\n\nThis section provides comprehensive coverage of " ++ toLowerStr section'.title ++
  ". Each subsection offers detailed insights and practical applications."

/-- `generateFallbackConclusion` (part_001:458-475). -/
def generateFallbackConclusion (title description : String) : String :=
  "## Conclusion\n\n" ++ description ++
  "\n\nWe've covered a lot of ground in this comprehensive guide to " ++ toLowerStr title ++
  ". Here are the key takeaways:\n\n- **Understanding the fundamentals** is crucial for success\n- **Practical application** of these concepts leads to better results\n- **Continuous learning** and adaptation are essential\n\nRemember, the journey doesn't end here. Take what you've learned and apply it to your own situation. The strategies and insights shared in this guide can help you achieve your goals and overcome challenges.\n\nWhat's your next step? How will you apply these insights to your own journey?"

/-- `generateIntroduction` (part_001:195-216) with the upstream call's
result supplied as an oracle: a failed or empty response selects the
deterministic fallback. -/
def generateIntroduction (title introductionDescription : String)
    (response : ApiResponse) : String :=
  if response.failed then generateFallbackIntroduction title introductionDescription
  else response.data.getD ""

/-- `generateSection` (part_001:218-244). -/
def generateSection (section' : BlogSection) (response : ApiResponse) : String :=
  if response.failed then generateFallbackSection section'
  else response.data.getD ""

/-- `generateConclusion` (part_001:246-267). -/
def generateConclusion (title conclusionDescription : String)
    (response : ApiResponse) : String :=
  if response.failed then generateFallbackConclusion title conclusionDescription
  else response.data.getD ""

/-- The conclusion-header guard of `generateContentFromOutline`
(part_001:162-167): prepend `## Conclusion` when the generated text lacks
it (case-insensitively). -/
def ensureConclusionHeader (conclusion : String) : String :=
  if strContainsStr (toLowerStr conclusion) "## conclusion" then conclusion
  else "## Conclusion\n\n" ++ conclusion

/-- The `contentParts` assembly of `generateContentFromOutline`
(part_001:126-172): introduction, each section in outline order (the
`for (let i = 0; ...)` loop embedded as a map over indices), then the
header-guarded conclusion. -/
def buildContentParts (outline : BlogOutline) (introResp : ApiResponse)
    (sectionResps : Nat → ApiResponse) (conclResp : ApiResponse) : List String :=
  let introduction := generateIntroduction outline.title outline.introduction introResp
  let sectionParts := (List.range outline.sections.length).map
    (fun i => generateSection (outline.sections.getD i ⟨"", "", []⟩) (sectionResps i))
  let conclusion := generateConclusion outline.title outline.conclusion conclResp
  let finalConclusion := ensureConclusionHeader conclusion
  introduction :: (sectionParts ++ [finalConclusion])

/-- `processContent` (part_001:401-424): the content has already been
cleaned once on entry; if a forbidden pattern is still detected, clean a
second time, and abort only if a pattern survives that second pass. -/
def processContent (content : String) : Except String String :=
  let cleanedContent := validateAndCleanContent content
  if hasInvalidImageContent cleanedContent then
    let cleanedAgain := validateAndCleanContent cleanedContent
    if hasInvalidImageContent cleanedAgain then
      .error "Generated content contains invalid image references that cannot be cleaned"
    else .ok cleanedAgain
  else .ok cleanedContent

/-- `generateContentFromOutline` (part_001:122-193): join the parts with
blank lines and clean/validate the result. -/
def generateContentFromOutline (outline : BlogOutline) (introResp : ApiResponse)
    (sectionResps : Nat → ApiResponse) (conclResp : ApiResponse) : Except String String :=
  processContent (String.intercalate "\n\n"
    (buildContentParts outline introResp sectionResps conclResp))

/-- Oracle for one `generateOutline` call: the upstream response and the
result of `JSON.parse(cleanJsonResponse(...))` on its data (`none` models
a parse exception). -/
structure OutlineEnv where
  response : ApiResponse
  parsed : Option RawOutline

/-- `generateOutline` (part_001:80-120): `null` on upstream failure, parse
failure, or a JS-falsy required field.  Note `!outline.sections` is only
true when the field is absent — an empty array is truthy and passes. -/
def generateOutline (env : OutlineEnv) : Option BlogOutline :=
  if env.response.failed then none
  else
    match env.parsed with
    | none => none
    | some outline =>
      if jsStrFalsy outline.title || jsStrFalsy outline.introduction ||
          outline.sections.isNone || jsStrFalsy outline.conclusion then none
      else some ⟨outline.title.getD "", outline.introduction.getD "",
                 outline.sections.getD [], outline.conclusion.getD ""⟩

/-- Result of `generateMetadata` (part_001:269-308) at its boundary:
`success` with optional parsed data (its internal parse-failure fallback
already folded in, since no claim depends on it). -/
structure MetadataResult where
  success : Bool
  data : Option BlogMetadata

/-- Result of a `findInlineImages` call: `success` with optional data. -/
structure InlineImagesResult where
  success : Bool
  data : Option (List InlineImage)

/-- Oracle for `generateImages` (part_001:310-357). -/
structure ImagesEnv where
  coverResp : ApiResponse
  queriesSuccess : Bool
  queriesData : Option (List String)
  /-- the `findInlineImages` call may throw (`try`/`catch`) -/
  inlineCall : Except String InlineImagesResult

/-- `generateImages` (part_001:310-357): a failed cover lookup logs
"continuing without cover image" and yields `coverImageUrl = none`; inline
image failures are caught and yield the empty list.  This function never
fails. -/
def generateImages (env : ImagesEnv) : Option String × List InlineImage :=
  let coverImageUrl : Option String :=
    if env.coverResp.success && !(jsStrFalsy env.coverResp.data) then env.coverResp.data
    else none
  let inlineImages : List InlineImage :=
    if env.queriesSuccess && env.queriesData.isSome then
      match env.inlineCall with
      | .error _ => []  -- caught: "Continue without inline images"
      | .ok r => if r.success && r.data.isSome then r.data.getD [] else []
    else []
  (coverImageUrl, inlineImages)

/-- Full oracle for one `generateBlogContent` run. -/
structure ContentEnv where
  title : String
  outlineEnv : OutlineEnv
  metadata : MetadataResult
  introResp : ApiResponse
  sectionResps : Nat → ApiResponse
  conclResp : ApiResponse
  imagesEnv : ImagesEnv
  currentDate : String

/-- `generateBlogContent` (part_001:28-78): outline (fatal if `null`),
sections/metadata, images (cover optional), assembly, final validation. -/
def generateBlogContent (env : ContentEnv) : Except String BlogPost :=
  match generateOutline env.outlineEnv with
  | none => .error ("Failed to generate outline for \"" ++ env.title ++ "\"")
  | some outline =>
    match generateContentFromOutline outline env.introResp env.sectionResps env.conclResp with
    | .error e => .error e
    | .ok content =>
      let images := generateImages env.imagesEnv
      let tags := match env.metadata with
        | ⟨true, some d⟩ => d.tags
        | _ => ["blog"]
      let category := match env.metadata with
        | ⟨true, some d⟩ => d.category
        | _ => "general"
      let blogPost : BlogPost :=
        { title := env.title, content := content, coverImageUrl := images.1,
          tags := tags, category := category, date := env.currentDate,
          inlineImages := images.2 }
      match BlogValidator.validateBlogPost blogPost with
      | .error e => .error e
      | .ok _ => .ok blogPost

end ContentProcessor

/-! ## `BlogGenerator` (blogGenerator.ts) -/

namespace BlogGenerator

/-- JS string interpolation of a possibly-`undefined` value. -/
def jsShowOpt : Option String → String
  | none => "undefined"
  | some s => s

/-- Oracle for one `BlogGenerator.generateBlogPost` run (the path wired to
`index.ts`). -/
structure BGEnv where
  title : String
  contentResp : ApiResponse
  metadata : ContentProcessor.MetadataResult
  coverResp : ApiResponse
  queriesSuccess : Bool
  queriesData : Option (List String)
  inlineCall : Except String ContentProcessor.InlineImagesResult
  currentDate : String

/-- The private `validateBlogPost` of `BlogGenerator`
(blogGenerator.ts:242-265): unlike `BlogValidator.validateImages`, the
cover URL is checked unconditionally (it is always set on this path). -/
def validateBlogPost (post : BlogPost) : Except String Unit :=
  if hasInvalidImageContent post.content then
    .error "Blog post content contains invalid image references"
  else if !(strContainsStr (post.coverImageUrl.getD "") "pexels.com") then
    .error "Cover image must be from Pexels"
  else if post.inlineImages.any (fun image =>
      !(strContainsStr image.url "pexels.com") ||
      !(strContainsStr image.pexelsUrl "pexels.com")) then
    .error "All inline images must be from Pexels"
  else .ok ()

/-- The clean/re-check block of `BlogGenerator.generateBlogPost`
(blogGenerator.ts:83-102): clean once, and if a forbidden pattern is still
detected clean once more, throwing only if it persists. -/
def cleanContentStep (raw : String) : Except String String :=
  let cleaned0 := validateAndCleanContent raw
  if hasInvalidImageContent cleaned0 then
    let cleaned1 := validateAndCleanContent cleaned0
    if hasInvalidImageContent cleaned1 then
      .error "Generated content contains invalid image references that cannot be cleaned"
    else .ok cleaned1
  else .ok cleaned0

/-- The tail of `BlogGenerator.generateBlogPost` from the cover-image gate
on (blogGenerator.ts:104-163): a failed cover lookup **throws**
("skipping this post", lines 104-111); then optional inline images,
metadata fallback, assembly and final validation. -/
def coverGate (env : BGEnv) (cleanedContent : String) : Except String BlogPost :=
  if !env.coverResp.success || jsStrFalsy env.coverResp.data then
    .error ("No valid Pexels cover image available for \"" ++ env.title ++ "\"")
  else
    let inlineImages : List InlineImage :=
      if env.queriesSuccess && env.queriesData.isSome then
        match env.inlineCall with
        | .error _ => []
        | .ok r => if r.success && r.data.isSome then r.data.getD [] else []
      else []
    let metadata : BlogMetadata := match env.metadata with
      | ⟨true, some d⟩ => d
      | _ => ⟨["blog"], "general"⟩
    let blogPost : BlogPost :=
      { title := env.title, content := cleanedContent,
        coverImageUrl := env.coverResp.data,
        tags := metadata.tags, category := metadata.category,
        date := env.currentDate, inlineImages := inlineImages }
    match validateBlogPost blogPost with
    | .error e => .error e
    | .ok _ => .ok blogPost

/-- `BlogGenerator.generateBlogPost` (blogGenerator.ts:65-164): content
generation, the clean/re-check guard, then the cover gate and final
assembly. -/
def generateBlogPost (env : BGEnv) : Except String BlogPost :=
  if env.contentResp.failed then
    .error ("Failed to generate content for \"" ++ env.title ++ "\": " ++
      jsShowOpt env.contentResp.error)
  else
    match cleanContentStep (env.contentResp.data.getD "") with
    | .error e => .error e
    | .ok cleanedContent => coverGate env cleanedContent

/-- The error string recorded by the batch loop
(blogGenerator.ts:223): `Failed to generate post "${title}": ${error}`. -/
def failMsg (title err : String) : String :=
  "Failed to generate post \"" ++ title ++ "\": " ++ err

/-- The `for (const title of postsToGenerate)` loop of `generateAllPosts`
(blogGenerator.ts:210-227), with `generateAndSavePost` supplied as an
oracle from titles to either a saved file path or a thrown error.  Each
failure is caught, recorded and the loop continues. -/
def generateAllPostsLoop (gen : String → Except String String) :
    List String → List String × List String
  | [] => ([], [])
  | title :: rest =>
    let acc := generateAllPostsLoop gen rest
    match gen title with
    | .ok filePath => (filePath :: acc.1, acc.2)
    | .error e => (acc.1, failMsg title e :: acc.2)

/-- `generateAllPosts` (blogGenerator.ts:185-240): slice to `maxPosts` when
given (`maxPosts ? ideas.slice(0, maxPosts) : ideas`; a zero limit is
falsy), then run the loop; returns `(savedFiles, errors)`. -/
def generateAllPosts (gen : String → Except String String) (ideas : List String)
    (maxPosts : Option Nat) : List String × List String :=
  let postsToGenerate := match maxPosts with
    | some m => if m ≠ 0 then ideas.take m else ideas
    | none => ideas
  generateAllPostsLoop gen postsToGenerate

end BlogGenerator

example :
    BlogGenerator.generateAllPosts
      (fun t => if t == "b" then .error "boom" else .ok (t ++ ".md"))
      ["a", "b", "c"] none
      = (["a.md", "c.md"], ["Failed to generate post \"b\": boom"]) := by decide

/-! ## Helper lemmas -/

/-- The batch loop distributes over list append. -/
theorem generateAllPostsLoop_append (gen : String → Except String String)
    (l₁ l₂ : List String) :
    BlogGenerator.generateAllPostsLoop gen (l₁ ++ l₂) =
      ((BlogGenerator.generateAllPostsLoop gen l₁).1 ++
         (BlogGenerator.generateAllPostsLoop gen l₂).1,
       (BlogGenerator.generateAllPostsLoop gen l₁).2 ++
         (BlogGenerator.generateAllPostsLoop gen l₂).2) := by
  induction l₁ with
  | nil => simp [BlogGenerator.generateAllPostsLoop]
  | cons t rest ih =>
    simp only [List.cons_append, BlogGenerator.generateAllPostsLoop]
    cases hg : gen t <;> simp [hg, ih]

/-- Whatever the generated conclusion text, the header-guarded conclusion
contains the `## conclusion` marker case-insensitively. -/
theorem ensureConclusionHeader_contains (c : String) :
    strContainsStr (toLowerStr (ContentProcessor.ensureConclusionHeader c))
      "## conclusion" = true := by
  unfold ContentProcessor.ensureConclusionHeader
  by_cases h : strContainsStr (toLowerStr c) "## conclusion" = true
  · simp [h]
  · simp only [h, Bool.false_eq_true, if_false, ite_false]
    rfl

/-! ## Claim theorems -/

/-- C1 (counterexample): with the default policy (`maxRetries = 3`) and an
operation failing on every invocation with a retryable error, `withRetry`
does **not** invoke the operation exactly 3 times (it makes 4
invocations: the initial attempt plus 3 retries). -/
theorem c1_counterexample :
    ¬ ((withRetry
        (fun _ => (.error (.retryableErr 429 (some 1000) "Simulated rate limit") :
          Except JsError Nat))
        DEFAULT_RETRY_OPTIONS (fun _ => 0)).invocations = 3) := by
  decide

/-- C1 (amended): for every policy with `maxRetries = 3` (the spec's
`maxAttempts`) and every operation failing on every invocation with a
retryable error, `withRetry` invokes the operation exactly 4 times
(initial attempt + 3 retries) and re-raises the error of the final
attempt. -/
theorem c1_retry_exhaustion {α : Type} (op : Nat → Except JsError α)
    (config : RetryOptions) (rand : Nat → ℚ) (e : Nat → JsError)
    (hcfg : config.maxRetries = 3)
    (hfail : ∀ i, op i = .error (e i))
    (hretry : ∀ i, (e i).isRetryable = true) :
    (withRetry op config rand).invocations = 4 ∧
    (withRetry op config rand).result = Except.error (e 3) := by
  have hre : ∀ i, ∃ s r m, e i = .retryableErr s r m := by
    intro i
    have h := hretry i
    cases he : e i with
    | retryableErr s r m => exact ⟨s, r, m, rfl⟩
    | plainErr m => rw [he] at h; simp [JsError.isRetryable] at h
  obtain ⟨s0, r0, m0, he0⟩ := hre 0
  obtain ⟨s1, r1, m1, he1⟩ := hre 1
  obtain ⟨s2, r2, m2, he2⟩ := hre 2
  constructor <;>
    simp [withRetry, hcfg, withRetryGo, hfail 0, hfail 1, hfail 2, hfail 3,
      he0, he1, he2]

/-- C1 (witness): the amended theorem at a concrete always-failing
operation under the default policy. -/
theorem c1_retry_exhaustion_witness :
    (withRetry
        (fun _ => (.error (.retryableErr 500 none "Server error (500)") :
          Except JsError Nat))
        DEFAULT_RETRY_OPTIONS (fun _ => 0)).invocations = 4 ∧
    (withRetry
        (fun _ => (.error (.retryableErr 500 none "Server error (500)") :
          Except JsError Nat))
        DEFAULT_RETRY_OPTIONS (fun _ => 0)).result =
      Except.error (JsError.retryableErr 500 none "Server error (500)") :=
  c1_retry_exhaustion _ DEFAULT_RETRY_OPTIONS (fun _ => 0)
    (fun _ => .retryableErr 500 none "Server error (500)")
    rfl (fun _ => rfl) (fun _ => rfl)

/-- C2 (evaluation at the failing input): the candidate
"Future of Sustainable Packaging Solutions" against the existing title
"The Future of Sustainable Packaging" is **not** classified as a
duplicate — the existing side's content words are
`the, future, sustainable, packaging` (the length-3 word `the` survives
the `length > 2` filter), so the shared fraction is `3/4 = 0.75 < 0.8`,
although the repository's own documentation lists this exact pair as a
detected duplicate. -/
theorem c2_duplicate_example_eval :
    isDuplicateTitle "Future of Sustainable Packaging Solutions"
      ["The Future of Sustainable Packaging"] = false := by
  decide

/-- C8: an error on any single title is caught by the batch loop, recorded
with that title, and the loop continues with all remaining titles — the
results for the surrounding titles are exactly those of running the loop
on them alone. -/
theorem c8_batch_continues (gen : String → Except String String)
    (ts₁ ts₂ : List String) (t e : String) (hg : gen t = .error e) :
    BlogGenerator.generateAllPostsLoop gen (ts₁ ++ t :: ts₂) =
      ((BlogGenerator.generateAllPostsLoop gen ts₁).1 ++
         (BlogGenerator.generateAllPostsLoop gen ts₂).1,
       (BlogGenerator.generateAllPostsLoop gen ts₁).2 ++
         BlogGenerator.failMsg t e :: (BlogGenerator.generateAllPostsLoop gen ts₂).2) := by
  rw [generateAllPostsLoop_append]
  simp [BlogGenerator.generateAllPostsLoop, hg]

/-- C8 (witness): the theorem at a concrete three-title batch whose middle
title fails. -/
theorem c8_batch_continues_witness :
    BlogGenerator.generateAllPostsLoop
        (fun t => if t == "b" then .error "boom" else .ok (t ++ ".md"))
        (["a"] ++ "b" :: ["c"]) =
      ((BlogGenerator.generateAllPostsLoop
          (fun t => if t == "b" then .error "boom" else .ok (t ++ ".md")) ["a"]).1 ++
         (BlogGenerator.generateAllPostsLoop
          (fun t => if t == "b" then .error "boom" else .ok (t ++ ".md")) ["c"]).1,
       (BlogGenerator.generateAllPostsLoop
          (fun t => if t == "b" then .error "boom" else .ok (t ++ ".md")) ["a"]).2 ++
         BlogGenerator.failMsg "b" "boom" ::
           (BlogGenerator.generateAllPostsLoop
            (fun t => if t == "b" then .error "boom" else .ok (t ++ ".md")) ["c"]).2) :=
  c8_batch_continues _ ["a"] ["c"] "b" "boom" rfl

/-- C9: when the first attempt fails with a retryable error carrying an
explicit `retryAfterMs` hint of 2000, the delay before the next attempt is
exactly 2000 ms, regardless of the policy's backoff parameters and of the
jitter draw. -/
theorem c9_rate_limit_hint_precedence {α : Type} (op : Nat → Except JsError α)
    (config : RetryOptions) (rand : Nat → ℚ) (s : Nat) (m : String)
    (hop : op 0 = .error (.retryableErr s (some 2000) m))
    (hmr : 1 ≤ config.maxRetries) :
    (withRetry op config rand).delays.head? = some 2000 := by
  obtain ⟨k, hk⟩ : ∃ k, config.maxRetries = k + 1 := ⟨config.maxRetries - 1, by omega⟩
  simp [withRetry, hk, withRetryGo, hop]

/-- C9 (witness): the theorem at a concrete rate-limited operation. -/
theorem c9_rate_limit_hint_precedence_witness :
    (withRetry
        (fun _ => (.error (.retryableErr 429 (some 2000) "Rate limited by API") :
          Except JsError Nat))
        DEFAULT_RETRY_OPTIONS (fun _ => 0)).delays.head? = some 2000 :=
  c9_rate_limit_hint_precedence _ DEFAULT_RETRY_OPTIONS (fun _ => 0) 429
    "Rate limited by API" rfl (by decide)

/-- C10: a Pexels candidate whose alt text is absent or empty is accepted
by `isStockPhotoContent` outright — the keyword blacklist is only
consulted when alt text is present. -/
theorem c10_no_alt_text_accepted (photo : PexelsPhotoC)
    (h : photo.alt = none ∨ photo.alt = some "") :
    isStockPhotoContent photo = true := by
  rcases h with h | h <;> simp [isStockPhotoContent, jsStrFalsy, h]

/-- C3 (counterexample): in `ContentProcessor.generateBlogContent`, a
failed cover-image lookup does **not** abort the title: with every other
stage succeeding, generation returns a valid `BlogPost` whose
`coverImageUrl` is absent. -/
theorem c3_counterexample :
    ((ContentProcessor.generateBlogContent
        { title := "T",
          outlineEnv := ⟨⟨true, some "resp", none⟩,
            some ⟨some "T", some "I", some [], some "C"⟩⟩,
          metadata := ⟨false, none⟩,
          introResp := ⟨true, some "## Intro\n\nwe share", none⟩,
          sectionResps := fun _ => ⟨false, none, none⟩,
          conclResp := ⟨true, some "## Conclusion\n\nDone", none⟩,
          imagesEnv := ⟨⟨false, none, some "No valid stock photos found"⟩,
            true, some ["professional workspace"],
            .ok ⟨true, some []⟩⟩,
          currentDate := "2026-01-01" }).toOption.map
      (fun p => p.coverImageUrl)) = some none := by
  rfl

/-- C3 (amended): on the `BlogGenerator.generateBlogPost` path (the one
driven by `index.ts`), a failed cover-image resolution always aborts the
title with an error; the `ContentProcessor.generateBlogContent` path
instead continues without a cover image and can produce a validated
document lacking one. -/
theorem c3_cover_abort (env : BlogGenerator.BGEnv)
    (h : (!env.coverResp.success || jsStrFalsy env.coverResp.data) = true) :
    ∃ e, BlogGenerator.generateBlogPost env = .error e := by
  have hgate : ∀ c, BlogGenerator.coverGate env c =
      .error ("No valid Pexels cover image available for \"" ++ env.title ++ "\"") := by
    intro c
    rw [BlogGenerator.coverGate, if_pos h]
  rw [BlogGenerator.generateBlogPost]
  by_cases hcf : env.contentResp.failed = true
  · rw [if_pos hcf]
    exact ⟨_, rfl⟩
  · rw [if_neg hcf]
    cases hstep : BlogGenerator.cleanContentStep (env.contentResp.data.getD "") with
    | error e => exact ⟨e, rfl⟩
    | ok c => exact ⟨_, hgate c⟩

/-- C3 (witness): the amended theorem at a concrete run whose cover lookup
reports "not found". -/
theorem c3_cover_abort_witness :
    ∃ e, BlogGenerator.generateBlogPost
      { title := "T",
        contentResp := ⟨true, some "## Intro\n\nBody\n\n## Conclusion\n\nBye", none⟩,
        metadata := ⟨false, none⟩,
        coverResp := ⟨false, none, some "No valid stock photos found"⟩,
        queriesSuccess := true,
        queriesData := some ["professional workspace"],
        inlineCall := .ok ⟨true, some []⟩,
        currentDate := "2026-01-01" } = .error e :=
  c3_cover_abort _ (by decide)

/-- C4 (counterexample): an outline response with `sections` present but
equal to the **empty array** passes `generateOutline`'s validation (an
empty JS array is truthy), and full generation of that title succeeds
rather than failing — refuting the claim that an empty sections list
aborts the title. -/
theorem c4_counterexample :
    (ContentProcessor.generateOutline
        ⟨⟨true, some "resp", none⟩, some ⟨some "T", some "I", some [], some "C"⟩⟩).map
      (fun o => o.sections) = some [] ∧
    (ContentProcessor.generateBlogContent
        { title := "T4",
          outlineEnv := ⟨⟨true, some "resp", none⟩,
            some ⟨some "T", some "I", some [], some "C"⟩⟩,
          metadata := ⟨false, none⟩,
          introResp := ⟨true, some "## Intro\n\nHello", none⟩,
          sectionResps := fun _ => ⟨false, none, none⟩,
          conclResp := ⟨true, some "## Conclusion\n\nBye", none⟩,
          imagesEnv := ⟨⟨true, some "https://images.pexels.com/photos/1.jpeg", none⟩,
            true, some [], .ok ⟨true, some []⟩⟩,
          currentDate := "2026-01-02" }).toOption.isSome = true := by
  exact ⟨rfl, rfl⟩

/-- C4 (amended): outline generation fails immediately (returning `null`,
which `generateBlogContent` turns into an error with no fallback) exactly
when the upstream response fails, the response cannot be parsed, or one of
`title`, `introduction`, `conclusion` is missing or the empty string, or
the `sections` **field** is missing — but a present-and-empty sections
array is accepted. -/
theorem c4_outline_validation :
    (∀ env : ContentProcessor.OutlineEnv,
        (env.response.failed = true ∨ env.parsed = none) →
        ContentProcessor.generateOutline env = none) ∧
    (∀ (env : ContentProcessor.OutlineEnv) (raw : RawOutline),
        env.response.failed = false → env.parsed = some raw →
        (ContentProcessor.generateOutline env = none ↔
          (jsStrFalsy raw.title = true ∨ jsStrFalsy raw.introduction = true ∨
           raw.sections = none ∨ jsStrFalsy raw.conclusion = true))) ∧
    (∀ cenv : ContentProcessor.ContentEnv,
        ContentProcessor.generateOutline cenv.outlineEnv = none →
        ContentProcessor.generateBlogContent cenv =
          .error ("Failed to generate outline for \"" ++ cenv.title ++ "\"")) := by
  refine ⟨?_, ?_, ?_⟩
  · intro env h
    rcases h with h | h <;> simp [ContentProcessor.generateOutline, h]
  · intro env raw h1 h2
    simp only [ContentProcessor.generateOutline, h1, h2, Bool.false_eq_true,
      if_false, ite_false]
    by_cases hcond : (jsStrFalsy raw.title || jsStrFalsy raw.introduction ||
        raw.sections.isNone || jsStrFalsy raw.conclusion) = true
    · rw [if_pos hcond]
      simp only [Bool.or_eq_true, Option.isNone_iff_eq_none] at hcond
      exact iff_of_true rfl (by tauto)
    · rw [if_neg hcond]
      simp only [Bool.or_eq_true, Option.isNone_iff_eq_none] at hcond
      push_neg at hcond
      refine iff_of_false (by simp) ?_
      tauto
  · intro cenv h
    simp [ContentProcessor.generateBlogContent, h]

/-- C4 (witness): the amended theorem at concrete inputs — a failed
upstream response, a parsed outline missing its `title`, and a content
run whose outline stage failed. -/
theorem c4_outline_validation_witness :
    ContentProcessor.generateOutline ⟨⟨false, none, some "boom"⟩, none⟩ = none ∧
    ContentProcessor.generateOutline
      ⟨⟨true, some "resp", none⟩, some ⟨none, some "I", some [], some "C"⟩⟩ = none ∧
    ContentProcessor.generateBlogContent
      { title := "T",
        outlineEnv := ⟨⟨false, none, some "boom"⟩, none⟩,
        metadata := ⟨false, none⟩,
        introResp := ⟨false, none, none⟩,
        sectionResps := fun _ => ⟨false, none, none⟩,
        conclResp := ⟨false, none, none⟩,
        imagesEnv := ⟨⟨false, none, none⟩, false, none, .ok ⟨false, none⟩⟩,
        currentDate := "2026-01-01" } =
      .error ("Failed to generate outline for \"" ++ "T" ++ "\"") :=
  ⟨c4_outline_validation.1 _ (Or.inl (by decide)),
   (c4_outline_validation.2.1 _ ⟨none, some "I", some [], some "C"⟩
     (by decide) rfl).mpr (Or.inl (by decide)),
   c4_outline_validation.2.2 _ (c4_outline_validation.1 _ (Or.inl (by decide)))⟩

/-- C5 (counterexample): the body `"![a<img\n>](b)"` contains a forbidden
pattern (a raw `img` tag), and after **one** stripping pass a forbidden
pattern is still present (`"![a](b)"`, a markdown image created by the
tag's removal) — yet validation succeeds, because `processContent` cleans
a second time instead of failing. -/
theorem c5_counterexample :
    hasInvalidImageContent "![a<img\n>](b)" = true ∧
    hasInvalidImageContent (validateAndCleanContent "![a<img\n>](b)") = true ∧
    ContentProcessor.processContent "![a<img\n>](b)" = .ok "" := by
  refine ⟨by decide, by decide, ?_⟩
  rfl

/-- C5 (amended): `processContent` cleans the assembled body once
unconditionally; if a forbidden pattern is detected in the cleaned body it
cleans once more, and it fails permanently (raising the fixed error, with
no fallback) exactly when a forbidden pattern survives that second pass —
when the second pass removes every pattern, validation succeeds. -/
theorem c5_cleaning (content : String) :
    (hasInvalidImageContent (validateAndCleanContent content) = true →
      hasInvalidImageContent
        (validateAndCleanContent (validateAndCleanContent content)) = true →
      ContentProcessor.processContent content =
        .error "Generated content contains invalid image references that cannot be cleaned") ∧
    (hasInvalidImageContent
        (validateAndCleanContent (validateAndCleanContent content)) = false →
      ∃ out, ContentProcessor.processContent content = .ok out) := by
  constructor
  · intro h1 h2
    simp [ContentProcessor.processContent, h1, h2]
  · intro h2
    by_cases h1 : hasInvalidImageContent (validateAndCleanContent content) = true
    · simp only [ContentProcessor.processContent, h1, h2, if_true, ite_true,
        Bool.false_eq_true, if_false, ite_false]
      exact ⟨_, rfl⟩
    · replace h1 : hasInvalidImageContent (validateAndCleanContent content) = false := by
        cases hv : hasInvalidImageContent (validateAndCleanContent content)
        · rfl
        · exact absurd hv h1
      simp only [ContentProcessor.processContent, h1, Bool.false_eq_true,
        if_false, ite_false]
      exact ⟨_, rfl⟩

/-- C5 (witness): the amended theorem at a body whose forbidden pattern
survives both cleaning passes (validation aborts) and at a clean body
(validation succeeds). -/
theorem c5_cleaning_witness :
    ContentProcessor.processContent "![a<i<img\n>mg\n>](b)" =
      .error "Generated content contains invalid image references that cannot be cleaned" ∧
    ∃ out, ContentProcessor.processContent "## Section\n\ntext" = .ok out :=
  ⟨(c5_cleaning _).1 (by decide) (by decide), (c5_cleaning _).2 (by decide)⟩

/-- C6 (counterexample): the pairwise duplicate predicate is **not** the
spec's set-based shared-word fraction: the candidate
`"aaa aaa aaa aaa ccc"` against existing `"aaa bbb ddd eee"` is classified
a duplicate by the code (repeated words counted with multiplicity give
`4/5 ≥ 0.8`) while the spec's formula over token sets gives `1/4 < 0.8`. -/
theorem c6_counterexample :
    isDuplicateTitle "aaa aaa aaa aaa ccc" ["aaa bbb ddd eee"] = true ∧
    specIsDuplicatePair "aaa aaa aaa aaa ccc" "aaa bbb ddd eee" = false := by
  decide

/-- C6 (amended): two titles are duplicates iff their normalized forms are
identical, or both sides have at least one content word (longer than two
characters) and the number of candidate content words — counted **with
multiplicity**, over token lists rather than sets — that occur among the
existing side's content words, divided by the larger token-list length, is
at least 0.8. -/
theorem c6_duplicate_iff (a b : String) :
    isDuplicateTitle a [b] = true ↔
      (normalizeTitle a = normalizeTitle b ∨
        (contentWords (normalizeTitle a) ≠ [] ∧ contentWords (normalizeTitle b) ≠ [] ∧
          4 * max (contentWords (normalizeTitle a)).length
              (contentWords (normalizeTitle b)).length ≤
            5 * (contentWords (normalizeTitle a)).countP
              (fun w => (contentWords (normalizeTitle b)).contains w))) := by
  have hsingle : isDuplicateTitle a [b] = dupPair a b := by
    simp [isDuplicateTitle]
  rw [hsingle]
  unfold dupPair
  by_cases heq : normalizeTitle a = normalizeTitle b
  · simp [heq]
  · have hbeq : (normalizeTitle a == normalizeTitle b) = false := by
      simp [heq]
    simp only [hbeq, Bool.false_eq_true, if_false, ite_false]
    by_cases hemp : ((contentWords (normalizeTitle a)).length == 0 ||
        (contentWords (normalizeTitle b)).length == 0) = true
    · simp only [hemp, if_true, ite_true]
      simp only [Bool.or_eq_true, beq_iff_eq, List.length_eq_zero] at hemp
      simp [heq]
      intro h1 h2
      tauto
    · simp only [hemp, Bool.false_eq_true, if_false, ite_false]
      simp only [Bool.or_eq_true, beq_iff_eq, List.length_eq_zero] at hemp
      push_neg at hemp
      rw [List.countP_eq_length_filter]
      simp [heq, hemp.1, hemp.2, decide_eq_true_iff]

/-- C7: for every outline and every family of expansion responses, a
failed or empty response for the introduction, any section, or the
conclusion substitutes that slot's deterministic fallback (a function only
of the slot's outline data), and the final conclusion part always contains
the `## conclusion` header case-insensitively. -/
theorem c7_expansion_fallbacks (outline : BlogOutline) (introResp : ApiResponse)
    (sectionResps : Nat → ApiResponse) (conclResp : ApiResponse) :
    (introResp.failed = true →
      (ContentProcessor.buildContentParts outline introResp sectionResps conclResp).head? =
        some (ContentProcessor.generateFallbackIntroduction
          outline.title outline.introduction)) ∧
    (∀ i, i < outline.sections.length → (sectionResps i).failed = true →
      (ContentProcessor.buildContentParts outline introResp sectionResps conclResp).get?
          (i + 1) =
        some (ContentProcessor.generateFallbackSection
          (outline.sections.getD i ⟨"", "", []⟩))) ∧
    (conclResp.failed = true →
      (ContentProcessor.buildContentParts outline introResp sectionResps
          conclResp).getLast? =
        some (ContentProcessor.ensureConclusionHeader
          (ContentProcessor.generateFallbackConclusion
            outline.title outline.conclusion))) ∧
    (∀ last, (ContentProcessor.buildContentParts outline introResp sectionResps
        conclResp).getLast? = some last →
      strContainsStr (toLowerStr last) "## conclusion" = true) := by
  refine ⟨?_, ?_, ?_, ?_⟩
  · intro h
    simp [ContentProcessor.buildContentParts, ContentProcessor.generateIntroduction, h]
  · intro i hi h
    simp only [ContentProcessor.buildContentParts, List.get?_eq_getElem?,
      List.getElem?_cons_succ]
    rw [List.getElem?_append_left (by simpa using hi), List.getElem?_map,
      List.getElem?_range hi]
    simp [ContentProcessor.generateSection, h]
  · intro h
    simp only [ContentProcessor.buildContentParts]
    rw [show (ContentProcessor.generateIntroduction outline.title outline.introduction
        introResp) :: ((List.range outline.sections.length).map _ ++ [_]) =
      ((ContentProcessor.generateIntroduction outline.title outline.introduction
        introResp) :: (List.range outline.sections.length).map _) ++ [_] from rfl]
    rw [List.getLast?_concat]
    simp [ContentProcessor.generateConclusion, h]
  · intro last hlast
    simp only [ContentProcessor.buildContentParts] at hlast
    rw [show (ContentProcessor.generateIntroduction outline.title outline.introduction
        introResp) :: ((List.range outline.sections.length).map _ ++ [_]) =
      ((ContentProcessor.generateIntroduction outline.title outline.introduction
        introResp) :: (List.range outline.sections.length).map _) ++ [_] from rfl]
      at hlast
    rw [List.getLast?_concat] at hlast
    obtain rfl : ContentProcessor.ensureConclusionHeader
        (ContentProcessor.generateConclusion outline.title outline.conclusion conclResp)
        = last := by simpa using hlast
    exact ensureConclusionHeader_contains _

/-- C7 (witness): the theorem at a concrete one-section outline with every
expansion call failing. -/
theorem c7_expansion_fallbacks_witness :
    (ContentProcessor.buildContentParts ⟨"T", "I", [⟨"S", "D", []⟩], "C"⟩
        ⟨false, none, none⟩ (fun _ => ⟨false, none, none⟩) ⟨false, none, none⟩).head? =
      some (ContentProcessor.generateFallbackIntroduction "T" "I") ∧
    (ContentProcessor.buildContentParts ⟨"T", "I", [⟨"S", "D", []⟩], "C"⟩
        ⟨false, none, none⟩ (fun _ => ⟨false, none, none⟩) ⟨false, none, none⟩).get? 1 =
      some (ContentProcessor.generateFallbackSection
        ([(⟨"S", "D", []⟩ : BlogSection)].getD 0 ⟨"", "", []⟩)) ∧
    (ContentProcessor.buildContentParts ⟨"T", "I", [⟨"S", "D", []⟩], "C"⟩
        ⟨false, none, none⟩ (fun _ => ⟨false, none, none⟩) ⟨false, none, none⟩).getLast? =
      some (ContentProcessor.ensureConclusionHeader
        (ContentProcessor.generateFallbackConclusion "T" "C")) ∧
    strContainsStr (toLowerStr (ContentProcessor.ensureConclusionHeader
      (ContentProcessor.generateFallbackConclusion "T" "C"))) "## conclusion" = true := by
  obtain ⟨h1, h2, h3, h4⟩ := c7_expansion_fallbacks ⟨"T", "I", [⟨"S", "D", []⟩], "C"⟩
    ⟨false, none, none⟩ (fun _ => ⟨false, none, none⟩) ⟨false, none, none⟩
  exact ⟨h1 rfl, h2 0 (by decide) rfl, h3 rfl, h4 _ (h3 rfl)⟩

/-- C10 (witness): the theorem at a concrete candidate with no alt text. -/
theorem c10_no_alt_text_accepted_witness :
    isStockPhotoContent
      ⟨none, some "https://images.pexels.com/photos/1.jpeg",
       some "https://images.pexels.com/photos/1-m.jpeg", some "Ann",
       some "https://www.pexels.com/@ann", some "https://www.pexels.com/photo/1"⟩
      = true :=
  c10_no_alt_text_accepted _ (Or.inl rfl)
